import Mathlib

/-!
Shallow embedding of `src/resources/scripts/setup_venv.py` (ESPHome Desktop
first-run setup script) and verification of its specification.

Modelling choices:
* A filesystem path is a plain string; `pjoin` models `pathlib`'s `/` operator
  (the script only ever appends single relative components).
* The outside world is an oracle `Env`: the exit code, captured stdout and
  captured stderr of each subprocess command, and whether opening the
  configuration file for writing raises an `OSError`.
* Each Python function becomes a state-passing Lean function over `St`, which
  records the log lines printed so far, the subprocess commands spawned so far
  (with a flag telling whether their output was captured), and a small
  filesystem (a set of existing directories and a file-content map).
* Python exceptions become an explicit `Option PyExc` result;
  `subprocess.run(..., check=True)` raises `CalledProcessError` on a non-zero
  exit, and `str(e)` of that exception is modelled by `cpeStr` (command and
  exit status; the captured output is not part of the message).
* `main` takes `data_dir` already resolved to an absolute path and starts from
  a state in which that directory exists (the script creates it with
  `mkdir(parents=True, exist_ok=True)` before the `try` block).
-/

namespace SetupVenv

/-- Filesystem paths, as plain strings. -/
abbrev Path := String

/-- `pathlib`'s `/` operator for a single relative component. -/
def pjoin (a b : Path) : Path := a ++ "/" ++ b

/-- A spawned subprocess command: its argument vector and whether its output
was captured (`capture_output=True`) rather than passed through. -/
structure Cmd where
  args : List String
  captured : Bool
deriving DecidableEq, Repr

/-- The filesystem: the set of existing directories and the file contents. -/
structure FS where
  dirs : List Path
  files : List (Path × String)
deriving DecidableEq, Repr

/-- Oracle for the outside world: subprocess results and filesystem faults. -/
structure Env where
  exitCode : List String → Nat
  stdoutOf : List String → String
  stderrOf : List String → String
  writeFails : Path → Bool

/-- Python exceptions relevant to the script: `subprocess.CalledProcessError`
and any other exception (modelled by `OSError` from filesystem operations). -/
inductive PyExc where
  | calledProcessError (cmd : List String) (returncode : Nat)
  | osError (msg : String)
deriving DecidableEq, Repr

/-- Observable state of a run: log lines printed, commands spawned, and the
filesystem. -/
structure St where
  logs : List String
  cmds : List Cmd
  fs : FS
deriving DecidableEq, Repr

/-- `log(msg)`: print `[setup] {msg}`. -/
def logStep (msg : String) (s : St) : St :=
  { s with logs := s.logs ++ ["[setup] " ++ msg] }

/-- A single-quote character (Python `repr` quoting). -/
def squote : String := String.singleton (Char.ofNat 39)

/-- Python `repr` of a string, as it appears for the argv strings used here. -/
def pyRepr (x : String) : String := squote ++ x ++ squote

/-- Python `str` of a list of strings (e.g. `['py', '-m', 'venv']`). -/
def pyStrList (l : List String) : String :=
  "[" ++ String.intercalate ", " (l.map pyRepr) ++ "]"

/-- `str(subprocess.CalledProcessError(returncode, cmd))` for a positive
return code: the message mentions the command and the exit status only. -/
def cpeStr (cmd : List String) (rc : Nat) : String :=
  "Command " ++ squote ++ pyStrList cmd ++ squote ++
    " returned non-zero exit status " ++ toString rc ++ "."

/-- Python whitespace for `str.strip()`. -/
def isPySpace (c : Char) : Bool :=
  c == ' ' || c == '\t' || c == '\n' || c == '\r' ||
    c == Char.ofNat 11 || c == Char.ofNat 12

/-- Python `str.strip()`: remove leading and trailing whitespace. -/
def pyStrip (s : String) : String :=
  ⟨((s.data.dropWhile isPySpace).reverse.dropWhile isPySpace).reverse⟩

/-- Whether `pre` is an initial segment of `s` (used to state which log lines
can appear; computable over the character lists). -/
def strStartsWith (pre s : String) : Bool :=
  pre.data.isPrefixOf s.data

/-- `subprocess.run(cmd, check=True)` (optionally with
`capture_output=True, text=True`): record the spawned command, and raise
`CalledProcessError` exactly when the oracle reports a non-zero exit. -/
def runCmd (env : Env) (captured : Bool) (cmd : List String) (s : St) :
    St × Option PyExc :=
  let s := { s with cmds := s.cmds ++ [⟨cmd, captured⟩] }
  if env.exitCode cmd = 0 then (s, none)
  else (s, some (.calledProcessError cmd (env.exitCode cmd)))

/-- `create_venv(venv_dir, python_exe)`. -/
def create_venv (env : Env) (venv_dir : Path) (python_exe : String) (s : St) :
    St × Option PyExc :=
  let s := logStep ("Creating virtual environment at " ++ venv_dir) s
  runCmd env false [python_exe, "-m", "venv", venv_dir] s

/-- `get_venv_python(venv_dir)`; `sys.platform` is passed explicitly. -/
def get_venv_python (platform : String) (venv_dir : Path) : String :=
  if platform = "win32" then pjoin (pjoin venv_dir "Scripts") "python.exe"
  else pjoin (pjoin venv_dir "bin") "python"

/-- The `pip install --upgrade pip` argument vector. -/
def pipUpgradeCmd (venv_python : String) : List String :=
  [venv_python, "-m", "pip", "install", "--upgrade", "pip"]

/-- The `pip install esphome` argument vector, with the offline extras. -/
def espInstallCmd (venv_python : String) (offline : Bool) : List String :=
  [venv_python, "-m", "pip", "install", "esphome"] ++
    (if offline then ["--no-index", "--find-links", "wheels"] else [])

/-- `install_esphome(venv_python, offline)`. -/
def install_esphome (env : Env) (venv_python : String) (offline : Bool)
    (s : St) : St × Option PyExc :=
  let s := logStep "Upgrading pip" s
  match runCmd env false (pipUpgradeCmd venv_python) s with
  | (s, some e) => (s, some e)
  | (s, none) =>
    let s := logStep "Installing ESPHome" s
    runCmd env false (espInstallCmd venv_python offline) s

/-- `Path.mkdir(exist_ok=True)`: succeeds if the directory already exists or
its parent exists; raises `OSError` when the parent is missing. -/
def mkdirExistOk (p parent : Path) (fs : FS) : FS × Bool :=
  if fs.dirs.contains p then (fs, true)
  else if fs.dirs.contains parent then ({ fs with dirs := fs.dirs ++ [p] }, true)
  else (fs, false)

/-- `open(path, "w")` + `write(content)`: truncate and replace the file. -/
def writeFile (p : Path) (content : String) (fs : FS) : FS :=
  { fs with files := (fs.files.filter (fun e => ¬ e.1 = p)) ++ [(p, content)] }

/-- `configure_platformio(venv_python, data_dir)`. The `venv_python`
parameter is accepted and never used, exactly as in the source. -/
def configure_platformio (env : Env) (venv_python : String) (data_dir : Path)
    (s : St) : St × Option PyExc :=
  let s := logStep "Configuring PlatformIO" s
  let home := pjoin data_dir "platformio"
  let md := mkdirExistOk home data_dir s.fs
  if md.2 = false then
    (s, some (.osError ("No such file or directory: " ++ home)))
  else
    let s := { s with fs := md.1 }
    let config_file := pjoin data_dir "platformio_env.sh"
    if env.writeFails config_file then
      (s, some (.osError ("write failed: " ++ config_file)))
    else
      let s := { s with
        fs := writeFile config_file
          ("export PLATFORMIO_CORE_DIR=" ++ home ++ "\n") s.fs }
      let s := logStep ("PlatformIO configured to use " ++ home) s
      (s, none)

/-- The `python -m esphome version` argument vector. -/
def versionCmd (venv_python : String) : List String :=
  [venv_python, "-m", "esphome", "version"]

/-- `verify_installation(venv_python)`: runs the version command with output
captured; returns a boolean instead of raising. On success it logs the
stripped captured stdout; on `CalledProcessError` it logs `str(e)`. -/
def verify_installation (env : Env) (venv_python : String) (s : St) :
    St × Bool :=
  let s := logStep "Verifying installation" s
  match runCmd env true (versionCmd venv_python) s with
  | (s, none) =>
    let version := pyStrip (env.stdoutOf (versionCmd venv_python))
    let s := logStep ("ESPHome installed: " ++ version) s
    (s, true)
  | (s, some e) =>
    let msg := match e with
      | .calledProcessError cmd rc => cpeStr cmd rc
      | .osError m => m
    let s := logStep ("Verification failed: " ++ msg) s
    (s, false)

/-- The two `except` clauses of `main`: `CalledProcessError` then `Exception`. -/
def handleExc (e : PyExc) (s : St) : St × Nat :=
  match e with
  | .calledProcessError cmd rc =>
    (logStep ("Setup failed: " ++ cpeStr cmd rc) s, 1)
  | .osError msg =>
    (logStep ("Unexpected error: " ++ msg) s, 1)

/-- State at the start of the `try` block: nothing logged or spawned yet,
`data_dir` created (by `mkdir(parents=True, exist_ok=True)`), no files. -/
def initSt (data_dir : Path) : St :=
  { logs := [], cmds := [], fs := { dirs := [data_dir], files := [] } }

/-- `main()` from the start of the `try` block: `data_dir` is the already
resolved absolute path, `offline` and `python_exe` the parsed arguments.
Returns the final state and the process exit code. -/
def main (env : Env) (platform : String) (data_dir : Path) (offline : Bool)
    (python_exe : String) : St × Nat :=
  let s := initSt data_dir
  let venv_dir := pjoin data_dir "venv"
  match create_venv env venv_dir python_exe s with
  | (s, some e) => handleExc e s
  | (s, none) =>
    let venv_python := get_venv_python platform venv_dir
    match install_esphome env venv_python offline s with
    | (s, some e) => handleExc e s
    | (s, none) =>
      match configure_platformio env venv_python data_dir s with
      | (s, some e) => handleExc e s
      | (s, none) =>
        match verify_installation env venv_python s with
        | (s, false) => (logStep "Installation verification failed!" s, 1)
        | (s, true) => (logStep "Setup complete!" s, 0)

end SetupVenv

namespace SetupVenv

/-! ## Concrete environments used by witnesses and counterexamples -/

/-- A world in which every subprocess succeeds and nothing fails. -/
def envAllOk : Env :=
  { exitCode := fun _ => 0, stdoutOf := fun _ => " 2024.6.0\n",
    stderrOf := fun _ => "", writeFails := fun _ => false }

/-- A world in which only the `esphome version` check fails (exit 1), with
captured stderr `BOOM`. The interpreter of a venv at `/d/venv` on linux. -/
def envVerFail : Env :=
  { exitCode := fun c => if c = versionCmd "/d/venv/bin/python" then 1 else 0,
    stdoutOf := fun _ => "",
    stderrOf := fun c => if c = versionCmd "/d/venv/bin/python" then "BOOM" else "",
    writeFails := fun _ => false }

/-- A world in which the `pip install --upgrade pip` step fails (exit 2). -/
def envPipFail : Env :=
  { exitCode := fun c => if c = pipUpgradeCmd "/d/venv/bin/python" then 2 else 0,
    stdoutOf := fun _ => "", stderrOf := fun _ => "",
    writeFails := fun _ => false }

/-! ## Helper lemmas -/

theorem pjoin_ne_left (d c : Path) (hc : c.length ≠ 0) : pjoin d c ≠ d := by
  intro h
  have h2 := congrArg String.length h
  rw [pjoin, String.length_append, String.length_append] at h2
  have h3 : ("/" : String).length = 1 := by decide
  omega

theorem ne_of_length (a b : String) (h : a.length ≠ b.length) : a ≠ b :=
  fun e => h (congrArg String.length e)

theorem squote_length : squote.length = 1 := by decide

theorem cpeStr_length (cmd : List String) (rc : Nat) :
    42 ≤ (cpeStr cmd rc).length := by
  have ha : ("Command " : String).length = 8 := by decide
  have hb : (" returned non-zero exit status " : String).length = 31 := by decide
  have hc : ("." : String).length = 1 := by decide
  simp [cpeStr, String.length_append, ha, hb, hc, squote_length]
  omega

theorem strStartsWith_append (p r : String) :
    strStartsWith p (p ++ r) = true := by
  have h : ∀ (l t : List Char), l.isPrefixOf (l ++ t) = true := by
    intro l t
    induction l with
    | nil => simp [List.isPrefixOf]
    | cons a l ih => simp [List.isPrefixOf, ih]
  rw [strStartsWith, String.data_append]
  exact h p.data r.data

/-! ## Claims -/

/-- C7: resolving the environment's interpreter path is a pure function of
the target path and the platform family: on `win32` it is
`<venv>/Scripts/python.exe`, on every other platform `<venv>/bin/python`.
(Purity and totality are inherent: `get_venv_python` is a total Lean
function of exactly these two arguments.) -/
theorem C7_get_venv_python_layout :
    (∀ v : Path, get_venv_python "win32" v = v ++ "/Scripts/python.exe") ∧
    (∀ (p : String) (v : Path), p ≠ "win32" →
      get_venv_python p v = v ++ "/bin/python") := by
  constructor
  · intro v
    simp only [get_venv_python, pjoin, if_pos rfl, String.append_assoc]
    exact congrArg (v ++ ·) (by decide)
  · intro p v hp
    simp only [get_venv_python, pjoin, if_neg hp, String.append_assoc]
    exact congrArg (v ++ ·) (by decide)

/-- C7 witness: the theorem instantiated on `win32` and on `linux`. -/
theorem C7_witness :
    get_venv_python "win32" "/d/venv" = "/d/venv" ++ "/Scripts/python.exe" ∧
    get_venv_python "linux" "/d/venv" = "/d/venv" ++ "/bin/python" :=
  ⟨C7_get_venv_python_layout.1 "/d/venv",
    C7_get_venv_python_layout.2 "linux" "/d/venv" (by decide)⟩

/-- C10: the effect of `configure_platformio` depends only on `data_dir`:
two invocations differing only in the interpreter-path argument produce
identical results (the parameter is never used). -/
theorem C10_configure_ignores_interpreter (env : Env) (vp1 vp2 : String)
    (data_dir : Path) (s : St) :
    configure_platformio env vp1 data_dir s =
      configure_platformio env vp2 data_dir s := rfl

/-- C9: in offline mode the installer command is the online command plus
`--no-index --find-links wheels`; the local-source argument is the literal
relative path `wheels` — it contains no path separator, so it is resolved
against the process working directory, and it is not derived from
`data_dir` (which `install_esphome` does not even receive: its spawned
commands are a function of the interpreter path and the offline flag
alone, as the last conjunct shows). -/
theorem C9_offline_find_links_is_relative_wheels :
    (∀ vp : String, espInstallCmd vp true =
      espInstallCmd vp false ++ ["--no-index", "--find-links", "wheels"]) ∧
    ("wheels".data.contains (Char.ofNat 47) = false) ∧
    (∀ (env : Env) (vp : String) (s : St),
      ( install_esphome env vp true s).1.cmds = s.cmds ++
        (if env.exitCode (pipUpgradeCmd vp) = 0 then
          [⟨pipUpgradeCmd vp, false⟩, ⟨espInstallCmd vp true, false⟩]
        else [⟨pipUpgradeCmd vp, false⟩])) := by
  refine ⟨fun vp => rfl, by decide, ?_⟩
  intro env vp s
  by_cases h : env.exitCode (pipUpgradeCmd vp) = 0 <;>
    by_cases h2 : env.exitCode (espInstallCmd vp true) = 0 <;>
    simp [install_esphome, runCmd, logStep, h, h2]

/-- C8: `configure_platformio` creates the `platformio` cache directory
without error whether or not it already exists, and (re)writes the config
file so that afterwards its content is exactly
`export PLATFORMIO_CORE_DIR=<data_dir>/platformio` plus a newline — the
filter equation says the file table holds exactly one entry for the config
path, carrying exactly that content, regardless of any previous content. -/
theorem C8_configure_platformio_mkdir_and_overwrite (env : Env) (vp : String)
    (data_dir : Path) (s : St)
    (hd : data_dir ∈ s.fs.dirs)
    (hw : env.writeFails (pjoin data_dir "platformio_env.sh") = false) :
    ( configure_platformio env vp data_dir s).2 = none ∧
    (pjoin data_dir "platformio") ∈
      ( configure_platformio env vp data_dir s).1.fs.dirs ∧
    (( configure_platformio env vp data_dir s).1.fs.files.filter
        (fun e => e.1 = pjoin data_dir "platformio_env.sh")) =
      [(pjoin data_dir "platformio_env.sh",
        "export PLATFORMIO_CORE_DIR=" ++ pjoin data_dir "platformio" ++ "\n")] := by
  by_cases hp : (pjoin data_dir "platformio") ∈ s.fs.dirs
  · simp [configure_platformio, mkdirExistOk, hp, hd, hw, writeFile, logStep,
      List.filter_append, List.filter_filter]
  · simp [configure_platformio, mkdirExistOk, hp, hd, hw, writeFile, logStep,
      List.filter_append, List.filter_filter]

/-- C8 witness: a concrete run against a fresh `/d` directory. -/
theorem C8_witness :
    ( configure_platformio envAllOk "py" "/d" (initSt "/d")).2 = none :=
  (C8_configure_platformio_mkdir_and_overwrite envAllOk "py" "/d" (initSt "/d")
    (by decide) rfl).1

/-- C1: the exit code is 0 exactly when venv creation, the pip upgrade, the
package install, the configuration write and the verification all succeed,
and 1 in every other case (subprocess failure, write fault, or verification
returning false). -/
theorem C1_exit_code_zero_iff_all_steps_succeed (env : Env) (platform : String)
    (data_dir : Path) (offline : Bool) (python_exe : String) :
    (main env platform data_dir offline python_exe).2 =
      (if env.exitCode [python_exe, "-m", "venv", pjoin data_dir "venv"] = 0
          ∧ env.exitCode (pipUpgradeCmd
              (get_venv_python platform (pjoin data_dir "venv"))) = 0
          ∧ env.exitCode (espInstallCmd
              (get_venv_python platform (pjoin data_dir "venv")) offline) = 0
          ∧ env.writeFails (pjoin data_dir "platformio_env.sh") = false
          ∧ env.exitCode (versionCmd
              (get_venv_python platform (pjoin data_dir "venv"))) = 0
        then 0 else 1) := by
  have hne : ¬ (pjoin data_dir "platformio" = data_dir) :=
    pjoin_ne_left data_dir "platformio" (by decide)
  by_cases h1 : env.exitCode [python_exe, "-m", "venv", pjoin data_dir "venv"] = 0 <;>
    by_cases h2 : env.exitCode (pipUpgradeCmd
      (get_venv_python platform (pjoin data_dir "venv"))) = 0 <;>
    by_cases h3 : env.exitCode (espInstallCmd
      (get_venv_python platform (pjoin data_dir "venv")) offline) = 0 <;>
    by_cases h4 : env.writeFails (pjoin data_dir "platformio_env.sh") = false <;>
    by_cases h5 : env.exitCode (versionCmd
      (get_venv_python platform (pjoin data_dir "venv"))) = 0 <;>
    simp [main, create_venv, install_esphome, configure_platformio,
      verify_installation, runCmd, handleExc, logStep, initSt, mkdirExistOk,
      writeFile, hne, h1, h2, h3, h4, h5]

theorem verify_fail_logs (env : Env) (vp : String) (s : St)
    (h : env.exitCode (versionCmd vp) ≠ 0) :
    ( verify_installation env vp s).1.logs =
      s.logs ++ ["[setup] Verifying installation",
        "[setup] " ++ ("Verification failed: " ++
          cpeStr (versionCmd vp) (env.exitCode (versionCmd vp)))] := by
  simp [verify_installation, runCmd, logStep, h]

theorem startsWith_unexpected_write (r : String) :
    strStartsWith "[setup] Unexpected error: "
      ("[setup] Unexpected error: write failed: " ++ r) = true := by
  have h : ("[setup] Unexpected error: write failed: " : String) =
      "[setup] Unexpected error: " ++ "write failed: " := by decide
  rw [h, String.append_assoc]
  exact strStartsWith_append _ _

theorem venvCmd_ne_espInstall (pe d vp : String) :
    ([pe, "-m", "venv", d] = espInstallCmd vp false) = False := by
  simp [espInstallCmd]

theorem pipUp_ne_espInstall (vp vp2 : String) :
    (pipUpgradeCmd vp = espInstallCmd vp2 false) = False := by
  simp [pipUpgradeCmd, espInstallCmd]

theorem versionCmd_ne_espInstall (vp vp2 : String) :
    (versionCmd vp = espInstallCmd vp2 false) = False := by
  simp [versionCmd, espInstallCmd]

theorem versionCmd_ne_venvCmd (vp pe d : String) :
    (versionCmd vp = [pe, "-m", "venv", d]) = False := by
  simp [versionCmd]

theorem versionCmd_ne_pipUp (vp vp2 : String) :
    (versionCmd vp = pipUpgradeCmd vp2) = False := by
  simp [versionCmd, pipUpgradeCmd]

theorem versionCmd_ne_espInstall2 (vp vp2 : String) (off : Bool) :
    (versionCmd vp = espInstallCmd vp2 off) = False := by
  cases off <;> simp [versionCmd, espInstallCmd]

theorem verifLine_ne_creating (d : Path) :
    ¬ ("[setup] Verifying installation" =
      "[setup] " ++ ("Creating virtual environment at " ++ pjoin d "venv")) := by
  apply ne_of_length
  have h1 : ("[setup] Verifying installation" : String).length = 30 := by decide
  have h2 : ("[setup] " : String).length = 8 := by decide
  have h3 : ("Creating virtual environment at " : String).length = 32 := by decide
  have h4 : ("/" : String).length = 1 := by decide
  have h5 : ("venv" : String).length = 4 := by decide
  rw [h1, String.length_append, String.length_append, pjoin,
    String.length_append, String.length_append, h2, h3, h4, h5]
  omega

theorem verifLine_ne_setupFailed (c : List String) (rc : Nat) :
    ¬ ("[setup] Verifying installation" =
      "[setup] " ++ ("Setup failed: " ++ cpeStr c rc)) := by
  apply ne_of_length
  have h1 : ("[setup] Verifying installation" : String).length = 30 := by decide
  have h2 : ("[setup] " : String).length = 8 := by decide
  have h3 : ("Setup failed: " : String).length = 14 := by decide
  have h4 := cpeStr_length c rc
  rw [h1, String.length_append, String.length_append, h2, h3]
  omega

theorem instFailLine_ne_creating (d : Path) :
    ¬ ("[setup] Installation verification failed!" =
      "[setup] " ++ ("Creating virtual environment at " ++ pjoin d "venv")) := by
  apply ne_of_length
  have h1 : ("[setup] Installation verification failed!" : String).length = 41 := by decide
  have h2 : ("[setup] " : String).length = 8 := by decide
  have h3 : ("Creating virtual environment at " : String).length = 32 := by decide
  have h4 : ("/" : String).length = 1 := by decide
  have h5 : ("venv" : String).length = 4 := by decide
  rw [h1, String.length_append, String.length_append, pjoin,
    String.length_append, String.length_append, h2, h3, h4, h5]
  omega

theorem instFailLine_ne_setupFailed (c : List String) (rc : Nat) :
    ¬ ("[setup] Installation verification failed!" =
      "[setup] " ++ ("Setup failed: " ++ cpeStr c rc)) := by
  apply ne_of_length
  have h1 : ("[setup] Installation verification failed!" : String).length = 41 := by decide
  have h2 : ("[setup] " : String).length = 8 := by decide
  have h3 : ("Setup failed: " : String).length = 14 := by decide
  have h4 := cpeStr_length c rc
  rw [h1, String.length_append, String.length_append, h2, h3]
  omega

/-- C2: when the version-check subprocess exits non-zero,
`verify_installation` returns `false` (and, having return type `Bool`, it
raises nothing); the orchestrator then logs its own distinct line
`Installation verification failed!` as the final log line and returns exit
code 1. The last two conjuncts show no other step converts a subprocess
failure into a returned boolean: `create_venv` and `install_esphome`
return no exception exactly when their subprocesses all exit zero. -/
theorem C2_verification_failure_distinct_path (env : Env) (platform : String)
    (data_dir : Path) (offline : Bool) (python_exe : String)
    (h1 : env.exitCode [python_exe, "-m", "venv", pjoin data_dir "venv"] = 0)
    (h2 : env.exitCode (pipUpgradeCmd
      (get_venv_python platform (pjoin data_dir "venv"))) = 0)
    (h3 : env.exitCode (espInstallCmd
      (get_venv_python platform (pjoin data_dir "venv")) offline) = 0)
    (h4 : env.writeFails (pjoin data_dir "platformio_env.sh") = false)
    (h5 : env.exitCode (versionCmd
      (get_venv_python platform (pjoin data_dir "venv"))) ≠ 0) :
    (main env platform data_dir offline python_exe).2 = 1 ∧
    (main env platform data_dir offline python_exe).1.logs =
      ["[setup] " ++ ("Creating virtual environment at " ++ pjoin data_dir "venv"),
       "[setup] Upgrading pip",
       "[setup] Installing ESPHome",
       "[setup] Configuring PlatformIO",
       "[setup] " ++ ("PlatformIO configured to use " ++ pjoin data_dir "platformio"),
       "[setup] Verifying installation",
       "[setup] " ++ ("Verification failed: " ++
         cpeStr (versionCmd (get_venv_python platform (pjoin data_dir "venv")))
           (env.exitCode (versionCmd (get_venv_python platform (pjoin data_dir "venv"))))),
       "[setup] Installation verification failed!"] ∧
    (∀ s2 : St, ( verify_installation env
      (get_venv_python platform (pjoin data_dir "venv")) s2).2 = false) ∧
    (∀ (e2 : Env) (vd pe : String) (s2 : St),
      ((create_venv e2 vd pe s2).2 = none ↔
        e2.exitCode [pe, "-m", "venv", vd] = 0)) ∧
    (∀ (e2 : Env) (vp2 : String) (off : Bool) (s2 : St),
      (( install_esphome e2 vp2 off s2).2 = none ↔
        (e2.exitCode (pipUpgradeCmd vp2) = 0 ∧
          e2.exitCode (espInstallCmd vp2 off) = 0))) := by
  have hne : ¬ (pjoin data_dir "platformio" = data_dir) :=
    pjoin_ne_left data_dir "platformio" (by decide)
  refine ⟨?_, ?_, ?_, ?_, ?_⟩
  · simp [main, create_venv, install_esphome, configure_platformio,
      verify_installation, runCmd, handleExc, logStep, initSt, mkdirExistOk,
      writeFile, hne, h1, h2, h3, h4, h5]
  · simp [main, create_venv, install_esphome, configure_platformio,
      verify_installation, runCmd, handleExc, logStep, initSt, mkdirExistOk,
      writeFile, hne, h1, h2, h3, h4, h5]
  · intro s2
    simp [verify_installation, runCmd, logStep, h5]
  · intro e2 vd pe s2
    by_cases h : e2.exitCode [pe, "-m", "venv", vd] = 0 <;>
      simp [create_venv, runCmd, logStep, h]
  · intro e2 vp2 off s2
    by_cases ha : e2.exitCode (pipUpgradeCmd vp2) = 0 <;>
      by_cases hb : e2.exitCode (espInstallCmd vp2 off) = 0 <;>
      simp [install_esphome, runCmd, logStep, ha, hb]

/-- C2 witness: in the world where only the version check fails, the run
exits with code 1. -/
theorem C2_witness : (main envVerFail "linux" "/d" false "py").2 = 1 :=
  (C2_verification_failure_distinct_path envVerFail "linux" "/d" false "py"
    (by decide) (by decide) (by decide) rfl (by decide)).1

/-- C3 counterexample: the claim says the failure branch logs the captured
error output. In the world `envVerFail` the version check exits 1 with
captured stderr `BOOM`, `verify_installation` returns `false`, yet no log
line it produced contains `BOOM` anywhere — the logged text is
`str(CalledProcessError)`, which mentions only the command and the exit
status. -/
theorem C3_counterexample_stderr_not_logged :
    ( verify_installation envVerFail "/d/venv/bin/python" (initSt "/d")).2 = false ∧
    envVerFail.exitCode (versionCmd "/d/venv/bin/python") ≠ 0 ∧
    envVerFail.stderrOf (versionCmd "/d/venv/bin/python") = "BOOM" ∧
    (∀ l ∈ ( verify_installation envVerFail "/d/venv/bin/python"
        (initSt "/d")).1.logs,
      ¬ ∃ a b : String, l = a ++ "BOOM" ++ b) := by
  refine ⟨by decide, by decide, by decide, ?_⟩
  intro l hl hx
  obtain ⟨a, b, rfl⟩ := hx
  rw [verify_fail_logs envVerFail "/d/venv/bin/python" (initSt "/d") (by decide)] at hl
  simp [initSt] at hl
  have hB : 'B' ∈ (a ++ "BOOM" ++ b).data := by
    rw [String.data_append, String.data_append]
    refine List.mem_append.mpr (Or.inl (List.mem_append.mpr (Or.inr ?_)))
    decide
  rcases hl with h | h <;> rw [h] at hB <;> revert hB <;> decide

/-- C3 (amended): `verify_installation` runs the version command with its
output captured (the recorded command carries `captured := true`); on exit
code 0 it logs the stripped captured stdout and returns `true`; on a
non-zero exit it logs the string form of the `CalledProcessError` — the
command and exit status, not the captured standard error — and returns
`false`. -/
theorem C3_verify_installation_behaviour (env : Env) (vp : String) (s : St) :
    ( verify_installation env vp s).2 = (env.exitCode (versionCmd vp) == 0) ∧
    ( verify_installation env vp s).1.cmds = s.cmds ++ [⟨versionCmd vp, true⟩] ∧
    ( verify_installation env vp s).1.logs =
      s.logs ++ ["[setup] Verifying installation",
        if env.exitCode (versionCmd vp) = 0 then
          "[setup] " ++ ("ESPHome installed: " ++ pyStrip (env.stdoutOf (versionCmd vp)))
        else
          "[setup] " ++ ("Verification failed: " ++
            cpeStr (versionCmd vp) (env.exitCode (versionCmd vp)))] := by
  by_cases h : env.exitCode (versionCmd vp) = 0 <;>
    simp [verify_installation, runCmd, logStep, h]

/-- C4: for every world, the orchestrator returns exit code 0 or 1 (it is a
total function — no exception escapes it), and whenever it returns 1 its
final log line is one of the three handled-failure lines, each carrying
the `[setup] ` contextual prefix: the `Setup failed: ` line of the
`CalledProcessError` handler, the `Unexpected error: ` line of the generic
handler, or the verification-failure line. -/
theorem C4_all_failures_caught_logged_nonzero (env : Env) (platform : String)
    (data_dir : Path) (offline : Bool) (python_exe : String) :
    ((main env platform data_dir offline python_exe).2 = 0 ∨
      (main env platform data_dir offline python_exe).2 = 1) ∧
    ((main env platform data_dir offline python_exe).2 = 1 →
      (strStartsWith "[setup] Setup failed: "
          ((main env platform data_dir offline python_exe).1.logs.getLast?.getD "") ||
        strStartsWith "[setup] Unexpected error: "
          ((main env platform data_dir offline python_exe).1.logs.getLast?.getD "") ||
        ((main env platform data_dir offline python_exe).1.logs.getLast?.getD "" ==
          "[setup] Installation verification failed!")) = true) := by
  have hne : ¬ (pjoin data_dir "platformio" = data_dir) :=
    pjoin_ne_left data_dir "platformio" (by decide)
  by_cases h1 : env.exitCode [python_exe, "-m", "venv", pjoin data_dir "venv"] = 0 <;>
    by_cases h2 : env.exitCode (pipUpgradeCmd
      (get_venv_python platform (pjoin data_dir "venv"))) = 0 <;>
    by_cases h3 : env.exitCode (espInstallCmd
      (get_venv_python platform (pjoin data_dir "venv")) offline) = 0 <;>
    by_cases h4 : env.writeFails (pjoin data_dir "platformio_env.sh") = false <;>
    by_cases h5 : env.exitCode (versionCmd
      (get_venv_python platform (pjoin data_dir "venv"))) = 0 <;>
    simp [main, create_venv, install_esphome, configure_platformio,
      verify_installation, runCmd, handleExc, logStep, initSt, mkdirExistOk,
      writeFile, hne, h1, h2, h3, h4, h5, ← String.append_assoc,
      strStartsWith_append, startsWith_unexpected_write]

/-- C4 witness: in the world where the pip upgrade fails, the exit code is 1
and the final log line is a handled-failure line. -/
theorem C4_witness :
    (strStartsWith "[setup] Setup failed: "
        ((main envPipFail "linux" "/d" false "py").1.logs.getLast?.getD "") ||
      strStartsWith "[setup] Unexpected error: "
        ((main envPipFail "linux" "/d" false "py").1.logs.getLast?.getD "") ||
      ((main envPipFail "linux" "/d" false "py").1.logs.getLast?.getD "" ==
        "[setup] Installation verification failed!")) = true :=
  (C4_all_failures_caught_logged_nonzero envPipFail "linux" "/d" false "py").2
    (by decide)

/-- C5: two runs differing only in the offline flag, in a world where both
variants of the install command succeed, have the same exit code, the same
logs and the same filesystem effects; their spawned commands differ only
in that the package-install invocation gains `--no-index --find-links
wheels` (the first conjunct), every other command being identical (the map
rewrites exactly the install command and fixes everything else). -/
theorem C5_offline_changes_only_install_args (env : Env) (platform : String)
    (data_dir : Path) (python_exe : String)
    (h0 : env.exitCode (espInstallCmd
      (get_venv_python platform (pjoin data_dir "venv")) false) = 0)
    (h1 : env.exitCode (espInstallCmd
      (get_venv_python platform (pjoin data_dir "venv")) true) = 0) :
    (∀ vp : String, espInstallCmd vp true =
      espInstallCmd vp false ++ ["--no-index", "--find-links", "wheels"]) ∧
    (main env platform data_dir true python_exe).2 =
      (main env platform data_dir false python_exe).2 ∧
    (main env platform data_dir true python_exe).1.logs =
      (main env platform data_dir false python_exe).1.logs ∧
    (main env platform data_dir true python_exe).1.fs =
      (main env platform data_dir false python_exe).1.fs ∧
    (main env platform data_dir true python_exe).1.cmds =
      (main env platform data_dir false python_exe).1.cmds.map
        (fun c => if c.args = espInstallCmd
            (get_venv_python platform (pjoin data_dir "venv")) false then
          ⟨espInstallCmd (get_venv_python platform (pjoin data_dir "venv")) true,
            c.captured⟩
        else c) := by
  have hne : ¬ (pjoin data_dir "platformio" = data_dir) :=
    pjoin_ne_left data_dir "platformio" (by decide)
  refine ⟨fun vp => rfl, ?_⟩
  by_cases hv : env.exitCode [python_exe, "-m", "venv", pjoin data_dir "venv"] = 0 <;>
    by_cases hp : env.exitCode (pipUpgradeCmd
      (get_venv_python platform (pjoin data_dir "venv"))) = 0 <;>
    by_cases hw : env.writeFails (pjoin data_dir "platformio_env.sh") = false <;>
    by_cases hver : env.exitCode (versionCmd
      (get_venv_python platform (pjoin data_dir "venv"))) = 0 <;>
    simp [main, create_venv, install_esphome, configure_platformio,
      verify_installation, runCmd, handleExc, logStep, initSt, mkdirExistOk,
      writeFile, hne, hv, hp, hw, hver, h0, h1,
      venvCmd_ne_espInstall, pipUp_ne_espInstall, versionCmd_ne_espInstall]

/-- C5 witness: in the all-succeeding world, the offline and non-offline
runs have equal exit codes. -/
theorem C5_witness :
    (main envAllOk "linux" "/d" true "py").2 =
      (main envAllOk "linux" "/d" false "py").2 :=
  (C5_offline_changes_only_install_args envAllOk "linux" "/d" "py" rfl rfl).2.1

/-- C6: if either installer subprocess fails (the pip upgrade, or — when the
upgrade succeeded — the package install), the run exits with code 1, the
version command is never spawned, and no verification log line is emitted:
the logs are exactly one of the two listed failure transcripts, neither of
which contains `Verifying installation` or the orchestrator's
verification-failure line. -/
theorem C6_install_failure_stops_before_verification (env : Env)
    (platform : String) (data_dir : Path) (offline : Bool) (python_exe : String)
    (hv : env.exitCode [python_exe, "-m", "venv", pjoin data_dir "venv"] = 0)
    (hfail : env.exitCode (pipUpgradeCmd
        (get_venv_python platform (pjoin data_dir "venv"))) ≠ 0 ∨
      env.exitCode (espInstallCmd
        (get_venv_python platform (pjoin data_dir "venv")) offline) ≠ 0) :
    (main env platform data_dir offline python_exe).2 = 1 ∧
    versionCmd (get_venv_python platform (pjoin data_dir "venv")) ∉
      (main env platform data_dir offline python_exe).1.cmds.map Cmd.args ∧
    "[setup] Verifying installation" ∉
      (main env platform data_dir offline python_exe).1.logs ∧
    "[setup] Installation verification failed!" ∉
      (main env platform data_dir offline python_exe).1.logs ∧
    ((main env platform data_dir offline python_exe).1.logs =
      ["[setup] " ++ ("Creating virtual environment at " ++ pjoin data_dir "venv"),
       "[setup] Upgrading pip",
       "[setup] " ++ ("Setup failed: " ++
         cpeStr (pipUpgradeCmd (get_venv_python platform (pjoin data_dir "venv")))
           (env.exitCode (pipUpgradeCmd
             (get_venv_python platform (pjoin data_dir "venv")))))] ∨
     (main env platform data_dir offline python_exe).1.logs =
      ["[setup] " ++ ("Creating virtual environment at " ++ pjoin data_dir "venv"),
       "[setup] Upgrading pip",
       "[setup] Installing ESPHome",
       "[setup] " ++ ("Setup failed: " ++
         cpeStr (espInstallCmd (get_venv_python platform (pjoin data_dir "venv")) offline)
           (env.exitCode (espInstallCmd
             (get_venv_python platform (pjoin data_dir "venv")) offline)))]) := by
  by_cases hp : env.exitCode (pipUpgradeCmd
      (get_venv_python platform (pjoin data_dir "venv"))) = 0
  · have hi : env.exitCode (espInstallCmd
        (get_venv_python platform (pjoin data_dir "venv")) offline) ≠ 0 := by
      rcases hfail with h | h
      · exact absurd hp h
      · exact h
    refine ⟨?_, ?_, ?_, ?_, Or.inr ?_⟩ <;>
      simp [main, create_venv, install_esphome, runCmd, handleExc, logStep,
        initSt, hv, hp, hi, versionCmd_ne_venvCmd, versionCmd_ne_pipUp,
        versionCmd_ne_espInstall2, verifLine_ne_creating,
        verifLine_ne_setupFailed, instFailLine_ne_creating,
        instFailLine_ne_setupFailed]
  · refine ⟨?_, ?_, ?_, ?_, Or.inl ?_⟩ <;>
      simp [main, create_venv, install_esphome, runCmd, handleExc, logStep,
        initSt, hv, hp, versionCmd_ne_venvCmd, versionCmd_ne_pipUp,
        versionCmd_ne_espInstall2, verifLine_ne_creating,
        verifLine_ne_setupFailed, instFailLine_ne_creating,
        instFailLine_ne_setupFailed]

/-- C6 witness: in the world where the pip upgrade fails, the run exits
with code 1. -/
theorem C6_witness : (main envPipFail "linux" "/d" false "py").2 = 1 :=
  (C6_install_failure_stops_before_verification envPipFail "linux" "/d" false
    "py" (by decide) (Or.inl (by decide))).1

end SetupVenv
